import Mathlib

/-!
Verification of the PangoT triangulation engine (src/app.py) against its
natural-language specification.

Modelling conventions, documented once here:

* Python floats are modelled by idealized real numbers `ℝ`; `numpy` trig and
  linear algebra are modelled by their exact mathematical meaning.
* The pyproj coordinate transformers `to_xy`/`to_ll` are external-library
  values configured at module level; they are modelled as explicit function
  parameters `toXY toLL : ℝ × ℝ → ℝ × ℝ` of `perform_triangulation`
  (the code calls `to_xy.transform(lon, lat)`, so `toXY` is applied to the
  `(lon, lat)` pair, and `toLL` returns a `(lon, lat)` pair).
* `np.linalg.lstsq(A, B, rcond=None)` on an `m × 2` system is modelled by
  `lstsq2`: if the Gram matrix `AᵀA` is invertible (exact-arithmetic rank 2)
  the unique least-squares solution `(AᵀA)⁻¹AᵀB` is returned together with
  the residual list `[‖A·x − B‖²]` when `m > 2` (numpy returns an empty
  residual array when `rank < 2` or `m ≤ 2`); otherwise the minimum-norm
  least-squares solution `A⁺B = (AᵀA)⁺AᵀB` is returned with an empty
  residual list.  For a symmetric PSD rank-≤1 matrix `G` with trace `t ≠ 0`,
  `G⁺ = G / t²`, which is the formula used in the rank-deficient branch.
* The SQLAlchemy session of `sync_data` is modelled by explicit state passing
  over a `Store` (the two tables).  The first commit (line 204) makes the raw
  rows durable; group processing mutates only the pending state, which the
  final commit (line 245) makes durable; the `except` branch rolls back to
  the last committed state.  Storage-collaborator failures are modelled by
  numbering the fallible storage operations (first commit = 0, then per
  group the read query and the fix delete, then the final commit) and by a
  parameter `failAt : Option ℕ` naming the operation that raises; `none`
  means storage never fails.
* Python `set(...)` iteration order is unspecified; the set of group ids is
  modelled as `List.dedup` of the ids in batch order.
* The f-string status messages of `sync_data` ("⏳ … Saved n/2 readings",
  "✅ … Fix Calculated! Err: e", "⚠️ gid: reason") are modelled by the
  structured type `GroupStatus` carrying exactly the data interpolated into
  each message; the quality `note` strings of a fix are modelled by
  `FixNote` the same way.
* `datetime.fromisoformat` is not re-implemented: an incoming record carries
  `time : Option (Option ℕ)` where `none` models a missing `'time'` key
  (`KeyError`) and `some none` models an unparseable string (`ValueError`).
-/

namespace PangoT

/-- Result of `perform_triangulation` (src/app.py lines 82-117): either the
`(lat, lon, error_metric)` tuple or the `"Math Error: …"` string produced by
the catch-all handler. -/
inductive TriResult where
  | ok (lat lon err : ℝ)
  | err (msg : String)

/-- `np.deg2rad`: degrees to radians. -/
noncomputable def deg2rad (b : ℝ) : ℝ := b * (Real.pi / 180)

/-- `bearing_to_unit_vector` (src/app.py lines 78-80):
`np.array([np.sin(rad), np.cos(rad)])` for `rad = np.deg2rad(b)`. -/
noncomputable def bearing_to_unit_vector (b : ℝ) : ℝ × ℝ :=
  (Real.sin (deg2rad b), Real.cos (deg2rad b))

/-- The system-assembly loop of `perform_triangulation` (src/app.py lines
96-101): for each projected observer `(x, y)` paired with its bearing `b`,
with `(dx, dy) = bearing_to_unit_vector b`, append the A-row `[dy, -dx]` and
the b-entry `dy*x - dx*y`. -/
noncomputable def buildSystem (pb : List ((ℝ × ℝ) × ℝ)) : List (ℝ × ℝ) × List ℝ :=
  (pb.map fun q => ((bearing_to_unit_vector q.2).2, -(bearing_to_unit_vector q.2).1),
   pb.map fun q =>
     (bearing_to_unit_vector q.2).2 * q.1.1 - (bearing_to_unit_vector q.2).1 * q.1.2)

/-- Entry (1,1) of the Gram matrix `AᵀA` of an `m × 2` matrix. -/
noncomputable def gramXX (A : List (ℝ × ℝ)) : ℝ := (A.map fun a => a.1 * a.1).sum

/-- Entry (1,2) = (2,1) of the Gram matrix `AᵀA`. -/
noncomputable def gramXY (A : List (ℝ × ℝ)) : ℝ := (A.map fun a => a.1 * a.2).sum

/-- Entry (2,2) of the Gram matrix `AᵀA`. -/
noncomputable def gramYY (A : List (ℝ × ℝ)) : ℝ := (A.map fun a => a.2 * a.2).sum

/-- First component of `AᵀB`. -/
noncomputable def atb1 (A : List (ℝ × ℝ)) (B : List ℝ) : ℝ :=
  ((A.zip B).map fun ab => ab.1.1 * ab.2).sum

/-- Second component of `AᵀB`. -/
noncomputable def atb2 (A : List (ℝ × ℝ)) (B : List ℝ) : ℝ :=
  ((A.zip B).map fun ab => ab.1.2 * ab.2).sum

/-- Determinant of the Gram matrix `AᵀA`; it is nonzero exactly when `A` has
rank 2 in exact arithmetic. -/
noncomputable def gramDet (A : List (ℝ × ℝ)) : ℝ :=
  gramXX A * gramYY A - gramXY A * gramXY A

/-- Sum of squared residuals `‖A·p − B‖²` of a candidate solution `p`. -/
noncomputable def rss (A : List (ℝ × ℝ)) (B : List ℝ) (p : ℝ × ℝ) : ℝ :=
  ((A.zip B).map fun ab => (ab.1.1 * p.1 + ab.1.2 * p.2 - ab.2) ^ 2).sum

/-- Model of `np.linalg.lstsq(A, B, rcond=None)` for an `m × 2` system
(src/app.py line 105), returning `(solution, residuals)`; see the module
docstring for the correspondence.  The residual list is nonempty exactly when
`m > 2` and the system has rank 2, in which case it holds the single value
`‖A·x − B‖²` — numpy's behaviour. -/
noncomputable def lstsq2 (A : List (ℝ × ℝ)) (B : List ℝ) : (ℝ × ℝ) × List ℝ :=
  if gramDet A = 0 then
    (if gramXX A + gramYY A = 0 then (0, 0)
     else (((gramXX A * atb1 A B + gramXY A * atb2 A B) /
              ((gramXX A + gramYY A) * (gramXX A + gramYY A))),
           ((gramXY A * atb1 A B + gramYY A * atb2 A B) /
              ((gramXX A + gramYY A) * (gramXX A + gramYY A)))), [])
  else
    (((gramYY A * atb1 A B - gramXY A * atb2 A B) / gramDet A,
      (gramXX A * atb2 A B - gramXY A * atb1 A B) / gramDet A),
     if 2 < A.length then
       [rss A B ((gramYY A * atb1 A B - gramXY A * atb2 A B) / gramDet A,
                 (gramXX A * atb2 A B - gramXY A * atb1 A B) / gramDet A)]
     else [])

/-- The error-scoring step of `perform_triangulation` (src/app.py lines
110-113): `error_score = 0.0`, overwritten by
`sqrt(residuals[0] / len(readings))` when the residual list is nonempty. -/
noncomputable def errScore (residuals : List ℝ) (n : ℕ) : ℝ :=
  if 0 < residuals.length then Real.sqrt (residuals.headI / (n : ℝ)) else 0

/-- The projection loop of `perform_triangulation` (src/app.py lines 88-94):
each reading `(lat, lon, brng)` becomes `(to_xy.transform(lon, lat), brng)`.
The code builds two parallel lists and zips them back together at line 97;
building the zipped list directly is the same list. -/
def projectReadings (toXY : ℝ × ℝ → ℝ × ℝ) (readings : List (ℝ × ℝ × ℝ)) :
    List ((ℝ × ℝ) × ℝ) :=
  readings.map fun r => (toXY (r.2.1, r.1), r.2.2)

/-- `perform_triangulation` (src/app.py lines 82-117), parameterized by the
module-level pyproj transformers.  In the idealized real-number model no step
of the body raises, so the catch-all `except` branch producing
`"Math Error: …"` is never taken and the result is always the
`(calc_lat, calc_lon, error_score)` tuple. -/
noncomputable def perform_triangulation (toXY toLL : ℝ × ℝ → ℝ × ℝ)
    (readings : List (ℝ × ℝ × ℝ)) : TriResult :=
  let AB := buildSystem (projectReadings toXY readings)
  let sr := lstsq2 AB.1 AB.2
  let ll := toLL sr.1
  TriResult.ok ll.2 ll.1 (errScore sr.2 readings.length)

/-- The least-squares residual sum of squares of the assembled system: the
residual of the solution `lstsq2` returns (which attains the minimum). -/
noncomputable def leastSquaresRSS (A : List (ℝ × ℝ)) (B : List ℝ) : ℝ :=
  rss A B (lstsq2 A B).1

/-- A row of the `raw_bearings` table (src/app.py lines 35-45).  The
datetime is modelled as an abstract tick `ℕ`; the autoincrement id is not
modelled (no claim mentions it). -/
structure RawBearing where
  group_id : String
  pango_id : String
  observer : String
  obs_lat : ℝ
  obs_lon : ℝ
  bearing : ℝ
  gps_accuracy : ℝ
  timestamp : ℕ
deriving Inhabited

/-- The quality note attached to a fix (src/app.py lines 226-230):
`"Least Squares (Err: {err:.1f}m)"` for more than two readings, otherwise
`"Least Squares (2-Line Fix)"`. -/
inductive FixNote where
  | leastSquaresErr (e : ℝ)
  | twoLineFix

/-- A row of the `calculated_fixes` table (src/app.py lines 47-55); the
creation timestamp and autoincrement id are not modelled. -/
structure CalculatedFix where
  group_id : String
  pango_id : String
  calc_lat : ℝ
  calc_lon : ℝ
  note : FixNote

/-- An incoming JSON record of a `/sync` batch (src/app.py lines 189-202).
`none` in a field models a missing key; see the module docstring for `time`. -/
structure SyncItem where
  group_id : Option String
  pango_id : Option String
  observer : Option String
  lat : Option ℝ
  lon : Option ℝ
  bearing : Option ℝ
  accuracy : Option ℝ
  time : Option (Option ℕ)

/-- The exceptions `sync_data`'s try-block can raise: a `KeyError` for a
missing required field, a `ValueError` from `fromisoformat`, or a storage
failure raised by the database collaborator. -/
inductive SyncExc where
  | keyError (field : String)
  | valueError
  | persistError
deriving DecidableEq

/-- The database state: the two tables the engine touches. -/
structure Store where
  raw_bearings : List RawBearing
  fixes : List CalculatedFix

/-- A structured per-group status message of `sync_data` (lines 214, 241,
243): the pending, resolved and failed messages with the data interpolated
into each f-string. -/
inductive GroupStatus where
  | pending (gid : String) (cnt : ℕ)
  | resolved (gid : String) (e : ℝ)
  | failed (gid : String) (reason : String)

/-- The HTTP-level outcome of `sync_data`: the success JSON with its messages
list, or the 500 error produced by the except branch. -/
inductive SyncResult where
  | success (messages : List GroupStatus)
  | error (e : SyncExc)

/-- Field access and timestamp parsing for one record of the raw-insert loop
(src/app.py lines 189-202), in the evaluation order of the Python code:
`item['time']` is parsed first, then the constructor arguments are read in
order; `observer` and `accuracy` use `.get` defaults `'--'` and `0`. -/
def buildRaw (it : SyncItem) : Except SyncExc RawBearing :=
  match it.time with
  | none => Except.error (SyncExc.keyError "time")
  | some none => Except.error SyncExc.valueError
  | some (some ts) =>
    match it.group_id with
    | none => Except.error (SyncExc.keyError "group_id")
    | some gid =>
      match it.pango_id with
      | none => Except.error (SyncExc.keyError "pango_id")
      | some pid =>
        match it.lat, it.lon, it.bearing with
        | none, _, _ => Except.error (SyncExc.keyError "lat")
        | some _, none, _ => Except.error (SyncExc.keyError "lon")
        | some _, some _, none => Except.error (SyncExc.keyError "bearing")
        | some la, some lo, some br =>
          Except.ok { group_id := gid, pango_id := pid,
                      observer := it.observer.getD "--",
                      obs_lat := la, obs_lon := lo, bearing := br,
                      gps_accuracy := it.accuracy.getD 0, timestamp := ts }

/-- The raw-insert loop over the whole batch (lines 188-202): the first
record that fails aborts the batch. -/
def buildRawAll : List SyncItem → Except SyncExc (List RawBearing)
  | [] => Except.ok []
  | it :: rest =>
    match buildRaw it with
    | Except.error e => Except.error e
    | Except.ok r =>
      match buildRawAll rest with
      | Except.error e => Except.error e
      | Except.ok rs => Except.ok (r :: rs)

/-- The generator inside `set(item['group_id'] for item in incoming_data)`
(line 185): collects every record's group id, raising `KeyError` on the
first record without one. -/
def collectGroupIds : List SyncItem → Except SyncExc (List String)
  | [] => Except.ok []
  | it :: rest =>
    match it.group_id with
    | none => Except.error (SyncExc.keyError "group_id")
    | some g =>
      match collectGroupIds rest with
      | Except.error e => Except.error e
      | Except.ok gs => Except.ok (g :: gs)

/-- `unique_groups` (line 185): the group ids of the batch with duplicates
removed (Python set iteration order is unspecified; `dedup` picks one). -/
def uniqueGroups (items : List SyncItem) : Except SyncExc (List String) :=
  match collectGroupIds items with
  | Except.error e => Except.error e
  | Except.ok gs => Except.ok gs.dedup

/-- Whether the storage operation numbered `k` raises, under the fault model
`failAt` (see the module docstring). -/
def opFails (failAt : Option ℕ) (k : ℕ) : Bool := failAt == some k

/-- One iteration of the group loop of `sync_data` (src/app.py lines
207-243) on the pending store `s.1` with operation counter `s.2`:
query all readings of the group (a fallible storage read), report Pending
below two readings, otherwise triangulate, delete any old fix (a fallible
storage write), and on a tuple result insert the new fix (built from the
first reading's `pango_id` and the count-dependent note), else record the
warning status. -/
def processGroup (tri : List (ℝ × ℝ × ℝ) → TriResult) (failAt : Option ℕ)
    (gid : String) (s : Store × ℕ) : Except SyncExc ((Store × ℕ) × GroupStatus) :=
  if opFails failAt s.2 then Except.error SyncExc.persistError else
  let st := s.1
  let n1 := s.2 + 1
  let readings_query := st.raw_bearings.filter fun r => r.group_id == gid
  let readings_list := readings_query.map fun r => (r.obs_lat, r.obs_lon, r.bearing)
  if readings_list.length < 2 then
    Except.ok ((st, n1), GroupStatus.pending gid readings_list.length)
  else
    let res := tri readings_list
    if opFails failAt n1 then Except.error SyncExc.persistError else
    let st2 : Store := { st with fixes := st.fixes.filter fun f => f.group_id != gid }
    match res with
    | TriResult.ok lat lon e =>
      let fix : CalculatedFix :=
        { group_id := gid, pango_id := readings_query.headI.pango_id,
          calc_lat := lat, calc_lon := lon,
          note := if 2 < readings_list.length then FixNote.leastSquaresErr e
                  else FixNote.twoLineFix }
      Except.ok (({ st2 with fixes := st2.fixes ++ [fix] }, n1 + 1),
                 GroupStatus.resolved gid e)
    | TriResult.err m => Except.ok ((st2, n1 + 1), GroupStatus.failed gid m)

/-- The group loop of `sync_data` (lines 207-243), accumulating the per-group
status messages in batch order. -/
def processGroups (tri : List (ℝ × ℝ × ℝ) → TriResult) (failAt : Option ℕ) :
    List String → (Store × ℕ) → List GroupStatus →
    Except SyncExc ((Store × ℕ) × List GroupStatus)
  | [], s, acc => Except.ok (s, acc)
  | gid :: rest, s, acc =>
    match processGroup tri failAt gid s with
    | Except.error e => Except.error e
    | Except.ok (s2, msg) => processGroups tri failAt rest s2 (acc ++ [msg])

/-- `sync_data` (src/app.py lines 179-250), parameterized by the
triangulation routine it calls and by the storage-fault model: compute the
batch's group-id set, validate and build the raw rows (both raise before any
write is committed), commit the raw rows (storage operation 0), run the
group loop on the pending state, commit (the last fallible operation), and
return the success payload together with the now-durable store.  The
`except` branch rolls back the pending state, so the store visible after an
error is the last committed one: the original store before the raw commit,
and the store extended with the batch's raw rows after it. -/
def sync_core (tri : List (ℝ × ℝ × ℝ) → TriResult) (failAt : Option ℕ)
    (st : Store) (items : List SyncItem) : SyncResult × Store :=
  match uniqueGroups items with
  | Except.error e => (SyncResult.error e, st)
  | Except.ok groups =>
    match buildRawAll items with
    | Except.error e => (SyncResult.error e, st)
    | Except.ok rows =>
      if opFails failAt 0 then (SyncResult.error SyncExc.persistError, st)
      else
        let st1 : Store := { st with raw_bearings := st.raw_bearings ++ rows }
        match processGroups tri failAt groups (st1, 1) [] with
        | Except.error e => (SyncResult.error e, st1)
        | Except.ok (s, msgs) =>
          if opFails failAt s.2 then (SyncResult.error SyncExc.persistError, st1)
          else (SyncResult.success msgs, s.1)

/-- The `/sync` endpoint as shipped: `sync_core` applied to the real
triangulation routine, with storage assumed healthy. -/
noncomputable def sync_data (toXY toLL : ℝ × ℝ → ℝ × ℝ) (st : Store)
    (items : List SyncItem) : SyncResult × Store :=
  sync_core (perform_triangulation toXY toLL) none st items

/-- The readings `sync_data` assembles for a group (lines 209-211): the
`(obs_lat, obs_lon, bearing)` triples of every stored row whose `group_id`
matches. -/
def groupReadings (raw : List RawBearing) (gid : String) : List (ℝ × ℝ × ℝ) :=
  (raw.filter fun r => r.group_id == gid).map fun r => (r.obs_lat, r.obs_lon, r.bearing)

/-- The fix row `sync_data` inserts for a group whose solve returned
`(lat, lon, e)` (lines 232-239). -/
def mkNewFix (raw : List RawBearing) (gid : String) (lat lon e : ℝ) : CalculatedFix :=
  { group_id := gid,
    pango_id := (raw.filter fun r => r.group_id == gid).headI.pango_id,
    calc_lat := lat, calc_lon := lon,
    note := if 2 < (groupReadings raw gid).length then FixNote.leastSquaresErr e
            else FixNote.twoLineFix }

/-- The status message one group contributes, as a function of the stored
raw rows and the triangulation routine. -/
def groupOutcome (tri : List (ℝ × ℝ × ℝ) → TriResult) (raw : List RawBearing)
    (gid : String) : GroupStatus :=
  let rl := groupReadings raw gid
  if rl.length < 2 then GroupStatus.pending gid rl.length
  else
    match tri rl with
    | TriResult.ok _ _ e => GroupStatus.resolved gid e
    | TriResult.err m => GroupStatus.failed gid m

/-- How one group's processing transforms the list of fixes bearing its own
group id: untouched below two readings, replaced by exactly the one new fix
on a tuple result, deleted with nothing inserted on an error result. -/
def groupStepFixes (tri : List (ℝ × ℝ × ℝ) → TriResult) (raw : List RawBearing)
    (gid : String) (oldGidFixes : List CalculatedFix) : List CalculatedFix :=
  let rl := groupReadings raw gid
  if rl.length < 2 then oldGidFixes
  else
    match tri rl with
    | TriResult.ok lat lon e => [mkNewFix raw gid lat lon e]
    | TriResult.err _ => []

/-- A record is malformed when a required field is missing or its timestamp
does not parse (spec §6: required fields are `groupId`, `animalId`, the
observer coordinates, the bearing, plus the `time` string the code reads). -/
def itemBad (it : SyncItem) : Bool :=
  it.group_id.isNone || it.pango_id.isNone || it.lat.isNone || it.lon.isNone ||
  it.bearing.isNone ||
  (match it.time with
   | some (some _) => false
   | _ => true)

/-! Helper lemmas shared by the claim theorems. -/

theorem opFails_none (k : ℕ) : opFails none k = false := rfl

theorem deg2rad_add_360_int (b : ℝ) (k : ℤ) :
    deg2rad (b + 360 * k) = deg2rad b + k * (2 * Real.pi) := by
  unfold deg2rad; ring

theorem buv_add_360_int (b : ℝ) (k : ℤ) :
    bearing_to_unit_vector (b + 360 * k) = bearing_to_unit_vector b := by
  unfold bearing_to_unit_vector
  rw [deg2rad_add_360_int, Real.sin_add_int_mul_two_pi, Real.cos_add_int_mul_two_pi]

theorem buv_add_180 (b : ℝ) :
    bearing_to_unit_vector (b + 180) =
      (-(bearing_to_unit_vector b).1, -(bearing_to_unit_vector b).2) := by
  have h : deg2rad (b + 180) = deg2rad b + Real.pi := by unfold deg2rad; ring
  unfold bearing_to_unit_vector
  rw [h, Real.sin_add_pi, Real.cos_add_pi]

theorem buv_parallel (b1 b2 : ℝ) (k : ℤ) (h : b2 - b1 = 180 * k) :
    bearing_to_unit_vector b2 = bearing_to_unit_vector b1 ∨
    bearing_to_unit_vector b2 =
      (-(bearing_to_unit_vector b1).1, -(bearing_to_unit_vector b1).2) := by
  rcases Int.even_or_odd k with ⟨m, hm⟩ | ⟨m, hm⟩
  · left
    have hb : b2 = b1 + 360 * m := by
      subst hm; push_cast at h; linarith
    rw [hb, buv_add_360_int]
  · right
    have hb : b2 = (b1 + 180) + 360 * m := by
      subst hm; push_cast at h; linarith
    rw [hb, buv_add_360_int (b1 + 180) m, buv_add_180]

theorem gramDet_pair (a b c d : ℝ) :
    gramDet [(a, b), (c, d)] = (a * d - b * c) ^ 2 := by
  simp [gramDet, gramXX, gramXY, gramYY]; ring

theorem lstsq2_snd_of_det_zero (A : List (ℝ × ℝ)) (B : List ℝ)
    (h : gramDet A = 0) : (lstsq2 A B).2 = [] := by
  rw [lstsq2, if_pos h]

theorem lstsq2_snd_short (A : List (ℝ × ℝ)) (B : List ℝ)
    (h : A.length ≤ 2) : (lstsq2 A B).2 = [] := by
  rw [lstsq2]
  split
  · rfl
  · simp [Nat.not_lt.mpr h]

theorem lstsq2_snd_of_det_ne_zero (A : List (ℝ × ℝ)) (B : List ℝ)
    (hd : gramDet A ≠ 0) (hl : 2 < A.length) :
    (lstsq2 A B).2 = [rss A B (lstsq2 A B).1] := by
  rw [lstsq2, if_neg hd]
  simp [hl]

theorem errScore_nil (n : ℕ) : errScore [] n = 0 := by simp [errScore]

theorem errScore_single (x : ℝ) (n : ℕ) :
    errScore [x] n = Real.sqrt (x / (n : ℝ)) := by simp [errScore]

theorem buildSystem_fst_length (pb : List ((ℝ × ℝ) × ℝ)) :
    (buildSystem pb).1.length = pb.length := by simp [buildSystem]

theorem buildSystem_snd_length (pb : List ((ℝ × ℝ) × ℝ)) :
    (buildSystem pb).2.length = pb.length := by simp [buildSystem]

theorem projectReadings_length (toXY : ℝ × ℝ → ℝ × ℝ) (readings : List (ℝ × ℝ × ℝ)) :
    (projectReadings toXY readings).length = readings.length := by
  simp [projectReadings]

/-- Deleting the fixes of a group leaves nothing with that group id. -/
theorem filter_del_self (l : List CalculatedFix) (gid : String) :
    ((l.filter fun f => f.group_id != gid).filter fun f => f.group_id == gid) = [] := by
  induction l with
  | nil => rfl
  | cons a t ih =>
    by_cases h : a.group_id = gid <;> simp [List.filter_cons, h, ih]

/-- Deleting the fixes of one group does not change another group's fixes. -/
theorem filter_del_other (l : List CalculatedFix) (gid g2 : String) (h : g2 ≠ gid) :
    ((l.filter fun f => f.group_id != gid).filter fun f => f.group_id == g2) =
      l.filter fun f => f.group_id == g2 := by
  induction l with
  | nil => rfl
  | cons a t ih =>
    by_cases ha : a.group_id = g2
    · have : a.group_id ≠ gid := by rw [ha]; exact h
      simp [List.filter_cons, ha, this, ih, h, Ne.symm h]
    · by_cases hb : a.group_id = gid <;>
        simp [List.filter_cons, ha, hb, ih, h, Ne.symm h]

/-- Behaviour of one group-loop iteration when storage never fails: the raw
table is untouched, the iteration succeeds, the reported status is
`groupOutcome`, and the fixes of each group id change exactly as
`groupStepFixes` describes (only the processed group's fixes change). -/
theorem processGroup_none_spec (tri : List (ℝ × ℝ × ℝ) → TriResult)
    (gid : String) (st : Store) (n : ℕ) :
    ∃ fx2 n2,
      processGroup tri none gid (st, n) =
        Except.ok ((⟨st.raw_bearings, fx2⟩, n2), groupOutcome tri st.raw_bearings gid) ∧
      ∀ g2 : String,
        (fx2.filter fun f => f.group_id == g2) =
          if g2 = gid then
            groupStepFixes tri st.raw_bearings gid (st.fixes.filter fun f => f.group_id == g2)
          else st.fixes.filter fun f => f.group_id == g2 := by
  have hrl : (st.raw_bearings.filter fun r => r.group_id == gid).map
      (fun r => (r.obs_lat, r.obs_lon, r.bearing)) = groupReadings st.raw_bearings gid := rfl
  by_cases hlen : ((st.raw_bearings.filter fun r => r.group_id == gid).map
      (fun r => (r.obs_lat, r.obs_lon, r.bearing))).length < 2
  · refine ⟨st.fixes, n + 1, ?_, ?_⟩
    · rw [processGroup]
      simp only [opFails_none, Bool.false_eq_true, if_false, if_pos hlen]
      rw [groupOutcome]
      rw [hrl] at hlen
      simp only [if_pos hlen]
      rw [hrl]
    · intro g2
      by_cases hg : g2 = gid
      · subst hg
        rw [groupStepFixes]
        rw [hrl] at hlen
        simp [hlen]
      · simp [hg]
  · rcases htri : tri (groupReadings st.raw_bearings gid) with ⟨lat, lon, e⟩ | m
    · refine ⟨(st.fixes.filter fun f => f.group_id != gid) ++
        [mkNewFix st.raw_bearings gid lat lon e], n + 1 + 1, ?_, ?_⟩
      · rw [processGroup]
        simp only [opFails_none, Bool.false_eq_true, if_false, if_neg hlen]
        rw [hrl, htri, groupOutcome]
        rw [hrl] at hlen
        simp only [if_neg hlen, htri]
        rfl
      · intro g2
        by_cases hg : g2 = gid
        · subst hg
          rw [groupStepFixes]
          rw [hrl] at hlen
          simp only [if_neg hlen, htri, List.filter_append, filter_del_self]
          simp [mkNewFix]
        · simp only [if_neg hg, List.filter_append, filter_del_other _ _ _ hg]
          have : ((mkNewFix st.raw_bearings gid lat lon e).group_id == g2) = false := by
            simp [mkNewFix]
            exact fun h => (hg h.symm).elim
          simp [List.filter_cons, this]
    · refine ⟨st.fixes.filter fun f => f.group_id != gid, n + 1 + 1, ?_, ?_⟩
      · rw [processGroup]
        simp only [opFails_none, Bool.false_eq_true, if_false, if_neg hlen]
        rw [hrl, htri, groupOutcome]
        rw [hrl] at hlen
        simp only [if_neg hlen, htri]
      · intro g2
        by_cases hg : g2 = gid
        · subst hg
          rw [groupStepFixes]
          rw [hrl] at hlen
          simp only [if_neg hlen, htri, filter_del_self]
          simp
        · simp only [if_neg hg, filter_del_other _ _ _ hg]

/-- Behaviour of the whole group loop when storage never fails, for a
duplicate-free group list: it succeeds, appends exactly one status per group
(its `groupOutcome`), leaves the raw table untouched, and transforms each
group id's fixes by `groupStepFixes` (ids outside the list are untouched). -/
theorem processGroups_none_spec (tri : List (ℝ × ℝ × ℝ) → TriResult)
    (raw0 : List RawBearing) :
    ∀ (gs : List String) (fx : List CalculatedFix) (n : ℕ) (acc : List GroupStatus),
      gs.Nodup →
      ∃ fx2 n2,
        processGroups tri none gs (⟨raw0, fx⟩, n) acc =
          Except.ok ((⟨raw0, fx2⟩, n2), acc ++ gs.map (groupOutcome tri raw0)) ∧
        ∀ g2 : String,
          (fx2.filter fun f => f.group_id == g2) =
            if g2 ∈ gs then
              groupStepFixes tri raw0 g2 (fx.filter fun f => f.group_id == g2)
            else fx.filter fun f => f.group_id == g2 := by
  intro gs
  induction gs with
  | nil =>
    intro fx n acc _
    exact ⟨fx, n, by simp [processGroups], fun g2 => by simp⟩
  | cons gid rest ih =>
    intro fx n acc hnd
    rcases List.nodup_cons.mp hnd with ⟨hnotin, hndr⟩
    rcases processGroup_none_spec tri gid ⟨raw0, fx⟩ n with ⟨fxA, nA, hstep, hfixA⟩
    rcases ih fxA nA (acc ++ [groupOutcome tri raw0 gid]) hndr with ⟨fxB, nB, hloop, hfixB⟩
    refine ⟨fxB, nB, ?_, ?_⟩
    · rw [processGroups, hstep]
      show processGroups tri none rest (⟨raw0, fxA⟩, nA) (acc ++ [groupOutcome tri raw0 gid]) =
        Except.ok ((⟨raw0, fxB⟩, nB), acc ++ (gid :: rest).map (groupOutcome tri raw0))
      rw [hloop]
      simp
    · intro g2
      by_cases hg : g2 = gid
      · subst hg
        have h1 := hfixB g2
        rw [if_neg hnotin] at h1
        have h2 := hfixA g2
        rw [if_pos rfl] at h2
        rw [h1, h2]
        simp [List.mem_cons]
      · have h1 := hfixB g2
        have h2 := hfixA g2
        rw [if_neg hg] at h2
        by_cases hmem : g2 ∈ rest
        · rw [if_pos hmem] at h1
          rw [h1, h2]
          simp [List.mem_cons, hmem]
        · rw [if_neg hmem] at h1
          rw [h1, h2]
          have : g2 ∉ gid :: rest := by
            simp [List.mem_cons, hg, hmem]
          rw [if_neg this]

theorem uniqueGroups_nodup (items : List SyncItem) (gs : List String)
    (h : uniqueGroups items = Except.ok gs) : gs.Nodup := by
  rw [uniqueGroups] at h
  rcases hc : collectGroupIds items with e | l <;> rw [hc] at h
  · cases h
  · cases h
    exact l.nodup_dedup

/-- Master description of a fault-free batch: highest-level behaviour of
`sync_core` with healthy storage on a batch whose records all validate.
The batch succeeds, reports exactly the `groupOutcome` of every distinct
group in the batch, the resulting store holds the original raw rows followed
by the batch's rows, and each group id's fixes are transformed by
`groupStepFixes` (group ids not in the batch keep their fixes). -/
theorem sync_core_none_spec (tri : List (ℝ × ℝ × ℝ) → TriResult) (st : Store)
    (items : List SyncItem) (groups : List String) (rows : List RawBearing)
    (hg : uniqueGroups items = Except.ok groups)
    (hr : buildRawAll items = Except.ok rows) :
    ∃ fx2,
      sync_core tri none st items =
        (SyncResult.success (groups.map (groupOutcome tri (st.raw_bearings ++ rows))),
         ⟨st.raw_bearings ++ rows, fx2⟩) ∧
      ∀ g2 : String,
        (fx2.filter fun f => f.group_id == g2) =
          if g2 ∈ groups then
            groupStepFixes tri (st.raw_bearings ++ rows) g2
              (st.fixes.filter fun f => f.group_id == g2)
          else st.fixes.filter fun f => f.group_id == g2 := by
  rcases processGroups_none_spec tri (st.raw_bearings ++ rows) groups st.fixes 1 []
      (uniqueGroups_nodup items groups hg) with ⟨fx2, n2, hloop, hfix⟩
  refine ⟨fx2, ?_, hfix⟩
  rw [sync_core, hg, hr]
  simp only [opFails_none, Bool.false_eq_true, if_false]
  rw [hloop]
  simp [opFails_none]

/-- Unfolding of `perform_triangulation`: the body always produces the
`TriResult.ok` tuple built from the least-squares solution and its residual
score. -/
theorem perform_triangulation_eq_ok (toXY toLL : ℝ × ℝ → ℝ × ℝ)
    (readings : List (ℝ × ℝ × ℝ)) :
    perform_triangulation toXY toLL readings =
      TriResult.ok
        (toLL (lstsq2 (buildSystem (projectReadings toXY readings)).1
            (buildSystem (projectReadings toXY readings)).2).1).2
        (toLL (lstsq2 (buildSystem (projectReadings toXY readings)).1
            (buildSystem (projectReadings toXY readings)).2).1).1
        (errScore (lstsq2 (buildSystem (projectReadings toXY readings)).1
            (buildSystem (projectReadings toXY readings)).2).2 readings.length) := rfl

theorem groupReadings_append (l1 l2 : List RawBearing) (gid : String) :
    groupReadings (l1 ++ l2) gid = groupReadings l1 gid ++ groupReadings l2 gid := by
  simp [groupReadings]

/-! The claims. -/

/-- C1 (counterexample): the claim "two observations whose bearings differ by
exactly 0° or 180° (after modulo-360 normalization) yield a GeometryError /
error result" is false of the code: `np.linalg.lstsq` does not raise on a
rank-deficient system, so `perform_triangulation` returns a coordinate tuple.
Concretely, observers at two points with bearings 0° and 180° produce a
tuple, not a `"Math Error"` string. -/
theorem C1_degenerate_rejection_false :
    ¬ (∀ (toXY toLL : ℝ × ℝ → ℝ × ℝ) (la1 lo1 la2 lo2 b1 b2 : ℝ),
        (∃ k : ℤ, b2 - b1 = 180 * k) →
        ∃ msg, perform_triangulation toXY toLL [(la1, lo1, b1), (la2, lo2, b2)] =
          TriResult.err msg) := by
  intro h
  obtain ⟨msg, hmsg⟩ := h id id 0 0 1 1 0 180 ⟨1, by norm_num⟩
  rw [perform_triangulation_eq_ok] at hmsg
  exact TriResult.noConfusion hmsg

/-- C1 (amended): for a two-observation group whose bearings differ by a
multiple of 180° the pipeline does not fail; the rank-deficient system makes
`lstsq` return its minimum-norm solution with an empty residual array, so
`perform_triangulation` silently returns a location tuple whose error score
is 0. -/
theorem C1_parallel_bearings_silent_ok (toXY toLL : ℝ × ℝ → ℝ × ℝ)
    (la1 lo1 la2 lo2 b1 b2 : ℝ) (h : ∃ k : ℤ, b2 - b1 = 180 * k) :
    ∃ lat lon, perform_triangulation toXY toLL [(la1, lo1, b1), (la2, lo2, b2)] =
      TriResult.ok lat lon 0 := by
  obtain ⟨k, hk⟩ := h
  have hA : (buildSystem (projectReadings toXY [(la1, lo1, b1), (la2, lo2, b2)])).1 =
      [((bearing_to_unit_vector b1).2, -(bearing_to_unit_vector b1).1),
       ((bearing_to_unit_vector b2).2, -(bearing_to_unit_vector b2).1)] := by
    simp [buildSystem, projectReadings]
  have hdet : gramDet
      (buildSystem (projectReadings toXY [(la1, lo1, b1), (la2, lo2, b2)])).1 = 0 := by
    rw [hA, gramDet_pair]
    rcases buv_parallel b1 b2 k hk with hv | hv <;> rw [hv] <;> ring
  have hok := perform_triangulation_eq_ok toXY toLL [(la1, lo1, b1), (la2, lo2, b2)]
  rw [lstsq2_snd_of_det_zero _ _ hdet, errScore_nil] at hok
  exact ⟨_, _, hok⟩

/-- C1 (witness): a concrete parallel pair (bearings 0° and 180°) on which
the amended statement applies. -/
theorem C1_parallel_bearings_silent_ok_witness :
    ∃ lat lon, perform_triangulation id id [((0:ℝ), (0:ℝ), (0:ℝ)), (1, 1, 180)] =
      TriResult.ok lat lon 0 :=
  C1_parallel_bearings_silent_ok id id 0 0 1 1 0 180 ⟨1, by norm_num⟩

/-- C7: the linear-system builder emits exactly one constraint row per
observation, in order: for the observation at index `i` with planar position
`(x, y)` and bearing unit vector `(dx, dy)`, the A-row is `(dy, -dx)` and
the b-entry is `dy*x - dx*y`. -/
theorem C7_system_rows (pb : List ((ℝ × ℝ) × ℝ)) (i : ℕ) (h : i < pb.length)
    (h1 : i < (buildSystem pb).1.length) (h2 : i < (buildSystem pb).2.length) :
    (buildSystem pb).1.length = pb.length ∧
    (buildSystem pb).2.length = pb.length ∧
    (buildSystem pb).1.get ⟨i, h1⟩ =
      ((bearing_to_unit_vector (pb.get ⟨i, h⟩).2).2,
       -(bearing_to_unit_vector (pb.get ⟨i, h⟩).2).1) ∧
    (buildSystem pb).2.get ⟨i, h2⟩ =
      (bearing_to_unit_vector (pb.get ⟨i, h⟩).2).2 * (pb.get ⟨i, h⟩).1.1 -
      (bearing_to_unit_vector (pb.get ⟨i, h⟩).2).1 * (pb.get ⟨i, h⟩).1.2 := by
  refine ⟨buildSystem_fst_length pb, buildSystem_snd_length pb, ?_, ?_⟩ <;>
    simp [buildSystem]

/-- C7 (witness): the row property at a concrete one-observation system. -/
theorem C7_system_rows_witness :
    (buildSystem [(((1:ℝ), (2:ℝ)), (0:ℝ))]).1.length = 1 :=
  (C7_system_rows [((1, 2), 0)] 0 (by norm_num)
    (by rw [buildSystem_fst_length]; norm_num)
    (by rw [buildSystem_snd_length]; norm_num)).1

/-- C8: the bearing vectorizer is a total function equal to
`(sin ∘ deg2rad, cos ∘ deg2rad)`, and it is 360°-periodic, so an
out-of-range bearing produces the same vector as its modulo-360
equivalent. -/
theorem C8_bearing_vectorizer (b : ℝ) (k : ℤ) :
    bearing_to_unit_vector b = (Real.sin (deg2rad b), Real.cos (deg2rad b)) ∧
    bearing_to_unit_vector (b + 360 * k) = bearing_to_unit_vector b :=
  ⟨rfl, buv_add_360_int b k⟩

/-- C10: `perform_triangulation` is total at its interface — it returns
either a `(lat, lon, error)` tuple or a `"Math Error: …"` string, never an
uncaught exception.  In the idealized real-number model no body step raises,
so the tuple disjunct always holds. -/
theorem C10_interface_total (toXY toLL : ℝ × ℝ → ℝ × ℝ)
    (readings : List (ℝ × ℝ × ℝ)) :
    (∃ lat lon e, perform_triangulation toXY toLL readings =
        TriResult.ok lat lon e) ∨
    (∃ s, perform_triangulation toXY toLL readings =
        TriResult.err ("Math Error: " ++ s)) :=
  Or.inl ⟨_, _, _, perform_triangulation_eq_ok toXY toLL readings⟩

/-- C2 (counterexample): the claim "for N ≥ 3 the returned confidence metric
equals sqrt(residualSumOfSquares / N)" is false of the code: when the system
is rank-deficient, numpy returns an empty residual array and the score stays
0 even though the true least-squares residual is positive.  Three observers
with parallel bearings 0° at x = 0, 0, 3 give score 0 but
sqrt(RSS/3) = sqrt 2. -/
theorem C2_metric_formula_false :
    ¬ (∀ (toXY toLL : ℝ × ℝ → ℝ × ℝ) (readings : List (ℝ × ℝ × ℝ)) (lat lon e : ℝ),
        perform_triangulation toXY toLL readings = TriResult.ok lat lon e →
        3 ≤ readings.length →
        e = Real.sqrt (leastSquaresRSS (buildSystem (projectReadings toXY readings)).1
              (buildSystem (projectReadings toXY readings)).2 /
            (readings.length : ℝ))) := by
  intro h
  have hok : perform_triangulation id id [((0:ℝ), (0:ℝ), (0:ℝ)), (0, 0, 0), (0, 3, 0)] =
      TriResult.ok 0 1 0 := by
    rw [perform_triangulation_eq_ok]
    norm_num [projectReadings, buildSystem, bearing_to_unit_vector, deg2rad,
      lstsq2, gramDet, gramXX, gramXY, gramYY, atb1, atb2, errScore]
  have h0 := h id id [(0, 0, 0), (0, 0, 0), (0, 3, 0)] 0 1 0 hok (by norm_num)
  have hrss : leastSquaresRSS
      (buildSystem (projectReadings id [((0:ℝ), (0:ℝ), (0:ℝ)), (0, 0, 0), (0, 3, 0)])).1
      (buildSystem (projectReadings id [((0:ℝ), (0:ℝ), (0:ℝ)), (0, 0, 0), (0, 3, 0)])).2 /
      (([((0:ℝ), (0:ℝ), (0:ℝ)), (0, 0, 0), (0, 3, 0)] : List (ℝ × ℝ × ℝ)).length : ℝ) =
      2 := by
    norm_num [leastSquaresRSS, rss, projectReadings, buildSystem,
      bearing_to_unit_vector, deg2rad, lstsq2, gramDet, gramXX, gramXY, gramYY,
      atb1, atb2]
  rw [hrss] at h0
  have h2 : (0:ℝ) < Real.sqrt 2 := Real.sqrt_pos.mpr (by norm_num)
  linarith [h0, h2]

/-- C2 (amended): for a successful triangulation the returned metric is 0
when there are at most two readings; it equals sqrt(RSS/N) for N ≥ 3
provided the assembled system has full rank (nonzero Gram determinant —
numpy reports no residual for a rank-deficient system, so the score then
stays 0); the metric is never negative; and the scorer is monotone in the
residual. -/
theorem C2_confidence_metric (toXY toLL : ℝ × ℝ → ℝ × ℝ)
    (readings : List (ℝ × ℝ × ℝ)) (lat lon e : ℝ)
    (h : perform_triangulation toXY toLL readings = TriResult.ok lat lon e) :
    (readings.length ≤ 2 → e = 0) ∧
    (3 ≤ readings.length →
      gramDet (buildSystem (projectReadings toXY readings)).1 ≠ 0 →
      e = Real.sqrt (leastSquaresRSS (buildSystem (projectReadings toXY readings)).1
            (buildSystem (projectReadings toXY readings)).2 /
          (readings.length : ℝ))) ∧
    0 ≤ e ∧
    (∀ (n : ℕ) (r1 r2 : ℝ), 0 ≤ r1 → r1 ≤ r2 → errScore [r1] n ≤ errScore [r2] n) := by
  rw [perform_triangulation_eq_ok] at h
  have hlA : (buildSystem (projectReadings toXY readings)).1.length = readings.length := by
    rw [buildSystem_fst_length, projectReadings_length]
  have he : e = errScore (lstsq2 (buildSystem (projectReadings toXY readings)).1
      (buildSystem (projectReadings toXY readings)).2).2 readings.length := by
    injection h with h1 h2 h3
    exact h3.symm
  refine ⟨?_, ?_, ?_, ?_⟩
  · intro hle
    rw [he, lstsq2_snd_short _ _ (by rw [hlA]; exact hle), errScore_nil]
  · intro h3 hd
    rw [he, lstsq2_snd_of_det_ne_zero _ _ hd (by rw [hlA]; exact h3),
      errScore_single]
    rfl
  · rw [he, errScore]
    split
    · exact Real.sqrt_nonneg _
    · exact le_rfl
  · intro n r1 r2 hr1 hr12
    rw [errScore_single, errScore_single]
    exact Real.sqrt_le_sqrt (div_le_div_of_nonneg_right hr12 (Nat.cast_nonneg n))

/-- C2 (witness): a concrete two-reading solve on which the amended theorem
applies, yielding metric exactly 0 and a nonnegative score. -/
theorem C2_confidence_metric_witness : (0:ℝ) = 0 ∧ (0:ℝ) ≤ 0 := by
  have hok : perform_triangulation id id [((0:ℝ), (0:ℝ), (0:ℝ)), (0, 5, 0)] =
      TriResult.ok 0 (5/2) 0 := by
    rw [perform_triangulation_eq_ok]
    norm_num [projectReadings, buildSystem, bearing_to_unit_vector, deg2rad,
      lstsq2, gramDet, gramXX, gramXY, gramYY, atb1, atb2, errScore]
  have hc := C2_confidence_metric id id [(0, 0, 0), (0, 5, 0)] 0 (5/2) 0 hok
  exact ⟨hc.1 (by norm_num), hc.2.2.1⟩

/-- C3: for every group of a fault-free batch that is recomputed
successfully (at least two observations on file and a tuple result from the
solver), processing deletes all previously stored fixes with that group id
and inserts exactly one new fix for it, so afterwards exactly one fix with
that group id exists in the store. -/
theorem C3_replace_semantics (tri : List (ℝ × ℝ × ℝ) → TriResult) (st : Store)
    (items : List SyncItem) (groups : List String) (rows : List RawBearing)
    (gid : String) (lat lon e : ℝ)
    (hg : uniqueGroups items = Except.ok groups)
    (hr : buildRawAll items = Except.ok rows)
    (hmem : gid ∈ groups)
    (h2 : 2 ≤ (groupReadings (st.raw_bearings ++ rows) gid).length)
    (hok : tri (groupReadings (st.raw_bearings ++ rows) gid) =
      TriResult.ok lat lon e) :
    ∃ msgs fin, sync_core tri none st items = (SyncResult.success msgs, fin) ∧
      (fin.fixes.filter fun f => f.group_id == gid) =
        [mkNewFix (st.raw_bearings ++ rows) gid lat lon e] := by
  rcases sync_core_none_spec tri st items groups rows hg hr with ⟨fx2, hsync, hfix⟩
  refine ⟨_, _, hsync, ?_⟩
  have hthis := hfix gid
  rw [if_pos hmem] at hthis
  simp only [groupStepFixes, Nat.not_lt.mpr h2, if_false, hok] at hthis
  exact hthis

/-- C3 (witness): one stored observation plus one batch observation for
group "g" and a solver returning a tuple. -/
theorem C3_replace_semantics_witness :
    ∃ msgs fin,
      sync_core (fun _ => TriResult.ok 10 20 0) none
        ⟨[{ group_id := "g", pango_id := "P", observer := "--", obs_lat := 4,
            obs_lon := 5, bearing := 6, gps_accuracy := 0, timestamp := 0 }], []⟩
        [{ group_id := some "g", pango_id := some "P", observer := none,
           lat := some 1, lon := some 2, bearing := some 3, accuracy := none,
           time := some (some 0) }] =
        (SyncResult.success msgs, fin) ∧
      (fin.fixes.filter fun f => f.group_id == "g") =
        [mkNewFix
          ([{ group_id := "g", pango_id := "P", observer := "--", obs_lat := 4,
              obs_lon := 5, bearing := 6, gps_accuracy := 0, timestamp := 0 }] ++
           [{ group_id := "g", pango_id := "P", observer := "--", obs_lat := 1,
              obs_lon := 2, bearing := 3, gps_accuracy := 0, timestamp := 0 }])
          "g" 10 20 0] :=
  C3_replace_semantics (fun _ => TriResult.ok 10 20 0) _ _ ["g"] _ "g" 10 20 0
    rfl rfl (by simp) (by decide) rfl

/-- C5: for every group of a fault-free batch with at least two observations
whose solve reports a failure result, any prior fix for that group is
deleted and none is inserted, the failure is recorded as that group's status
entry (the batch still succeeds), and every other group of the batch still
gets its own status entry. -/
theorem C5_geometry_failure_isolated (tri : List (ℝ × ℝ × ℝ) → TriResult)
    (st : Store) (items : List SyncItem) (groups : List String)
    (rows : List RawBearing) (gid : String) (m : String)
    (hg : uniqueGroups items = Except.ok groups)
    (hr : buildRawAll items = Except.ok rows)
    (hmem : gid ∈ groups)
    (h2 : 2 ≤ (groupReadings (st.raw_bearings ++ rows) gid).length)
    (herr : tri (groupReadings (st.raw_bearings ++ rows) gid) =
      TriResult.err m) :
    ∃ msgs fin, sync_core tri none st items = (SyncResult.success msgs, fin) ∧
      GroupStatus.failed gid m ∈ msgs ∧
      msgs.length = groups.length ∧
      (fin.fixes.filter fun f => f.group_id == gid) = [] := by
  rcases sync_core_none_spec tri st items groups rows hg hr with ⟨fx2, hsync, hfix⟩
  refine ⟨_, _, hsync, ?_, ?_, ?_⟩
  · have hout : groupOutcome tri (st.raw_bearings ++ rows) gid =
        GroupStatus.failed gid m := by
      simp only [groupOutcome, Nat.not_lt.mpr h2, if_false, herr]
    rw [← hout]
    exact List.mem_map_of_mem _ hmem
  · simp
  · have hthis := hfix gid
    rw [if_pos hmem] at hthis
    simp only [groupStepFixes, Nat.not_lt.mpr h2, if_false, herr] at hthis
    exact hthis

/-- C5 (witness): a two-observation group whose solver reports an error
string. -/
theorem C5_geometry_failure_isolated_witness :
    ∃ msgs fin,
      sync_core (fun _ => TriResult.err "Math Error: x") none
        ⟨[{ group_id := "h", pango_id := "P", observer := "--", obs_lat := 4,
            obs_lon := 5, bearing := 6, gps_accuracy := 0, timestamp := 0 }],
         [{ group_id := "h", pango_id := "P", calc_lat := 1, calc_lon := 1,
            note := FixNote.twoLineFix }]⟩
        [{ group_id := some "h", pango_id := some "P", observer := none,
           lat := some 1, lon := some 2, bearing := some 3, accuracy := none,
           time := some (some 0) }] =
        (SyncResult.success msgs, fin) ∧
      GroupStatus.failed "h" "Math Error: x" ∈ msgs ∧
      msgs.length = (["h"] : List String).length ∧
      (fin.fixes.filter fun f => f.group_id == "h") = [] :=
  C5_geometry_failure_isolated (fun _ => TriResult.err "Math Error: x") _ _ ["h"] _
    "h" "Math Error: x" rfl rfl (by simp) (by decide) rfl

/-- C6: a group of a fault-free batch with fewer than two observations on
file at recomputation time reports a Pending status carrying the observation
count, its fixes are left exactly as they were (no fix write), and its
outcome is the same whatever solver is supplied (no solver call decides
it). -/
theorem C6_pending_gate (tri : List (ℝ × ℝ × ℝ) → TriResult) (st : Store)
    (items : List SyncItem) (groups : List String) (rows : List RawBearing)
    (gid : String)
    (hg : uniqueGroups items = Except.ok groups)
    (hr : buildRawAll items = Except.ok rows)
    (hmem : gid ∈ groups)
    (hlt : (groupReadings (st.raw_bearings ++ rows) gid).length < 2) :
    ∃ msgs fin, sync_core tri none st items = (SyncResult.success msgs, fin) ∧
      GroupStatus.pending gid (groupReadings (st.raw_bearings ++ rows) gid).length ∈ msgs ∧
      (fin.fixes.filter fun f => f.group_id == gid) =
        (st.fixes.filter fun f => f.group_id == gid) ∧
      ∀ tri2 : List (ℝ × ℝ × ℝ) → TriResult,
        groupOutcome tri2 (st.raw_bearings ++ rows) gid =
          GroupStatus.pending gid (groupReadings (st.raw_bearings ++ rows) gid).length := by
  rcases sync_core_none_spec tri st items groups rows hg hr with ⟨fx2, hsync, hfix⟩
  have hout : ∀ tri2 : List (ℝ × ℝ × ℝ) → TriResult,
      groupOutcome tri2 (st.raw_bearings ++ rows) gid =
        GroupStatus.pending gid (groupReadings (st.raw_bearings ++ rows) gid).length := by
    intro tri2
    simp only [groupOutcome, hlt, if_true]
  refine ⟨_, _, hsync, ?_, ?_, hout⟩
  · rw [← hout tri]
    exact List.mem_map_of_mem _ hmem
  · have hthis := hfix gid
    rw [if_pos hmem] at hthis
    simp only [groupStepFixes, hlt, if_true] at hthis
    exact hthis

/-- C6 (witness): a batch introducing a brand-new group with a single
observation. -/
theorem C6_pending_gate_witness :
    ∃ msgs fin,
      sync_core (fun _ => TriResult.ok 0 0 0) none ⟨[], []⟩
        [{ group_id := some "p", pango_id := some "P", observer := none,
           lat := some 1, lon := some 2, bearing := some 3, accuracy := none,
           time := some (some 0) }] =
        (SyncResult.success msgs, fin) ∧
      GroupStatus.pending "p"
        (groupReadings (([] : List RawBearing) ++
          [{ group_id := "p", pango_id := "P", observer := "--", obs_lat := 1,
             obs_lon := 2, bearing := 3, gps_accuracy := 0, timestamp := 0 }]) "p").length
        ∈ msgs ∧
      (fin.fixes.filter fun f => f.group_id == "p") =
        (([] : List CalculatedFix).filter fun f => f.group_id == "p") ∧
      ∀ tri2 : List (ℝ × ℝ × ℝ) → TriResult,
        groupOutcome tri2 (([] : List RawBearing) ++
          [{ group_id := "p", pango_id := "P", observer := "--", obs_lat := 1,
             obs_lon := 2, bearing := 3, gps_accuracy := 0, timestamp := 0 }]) "p" =
          GroupStatus.pending "p"
            (groupReadings (([] : List RawBearing) ++
              [{ group_id := "p", pango_id := "P", observer := "--", obs_lat := 1,
                 obs_lon := 2, bearing := 3, gps_accuracy := 0, timestamp := 0 }]) "p").length :=
  C6_pending_gate (fun _ => TriResult.ok 0 0 0) ⟨[], []⟩ _ ["p"] _ "p"
    rfl rfl (by simp) (by decide)

/-- C9: the readings a group is recomputed from are all observations stored
for its group id — the previously stored ones followed by the batch's — not
merely the batch's own: the group's reported status is determined by the
solver's result on that combined list. -/
theorem C9_recompute_uses_all (tri : List (ℝ × ℝ × ℝ) → TriResult) (st : Store)
    (items : List SyncItem) (groups : List String) (rows : List RawBearing)
    (gid : String)
    (hg : uniqueGroups items = Except.ok groups)
    (hr : buildRawAll items = Except.ok rows)
    (hmem : gid ∈ groups)
    (h2 : 2 ≤ (groupReadings st.raw_bearings gid ++ groupReadings rows gid).length) :
    ∃ msgs fin, sync_core tri none st items = (SyncResult.success msgs, fin) ∧
      (match tri (groupReadings st.raw_bearings gid ++ groupReadings rows gid) with
       | TriResult.ok _ _ e => GroupStatus.resolved gid e
       | TriResult.err m => GroupStatus.failed gid m) ∈ msgs := by
  rcases sync_core_none_spec tri st items groups rows hg hr with ⟨fx2, hsync, hfix⟩
  refine ⟨_, _, hsync, ?_⟩
  have happ := groupReadings_append st.raw_bearings rows gid
  have hout : groupOutcome tri (st.raw_bearings ++ rows) gid =
      (match tri (groupReadings st.raw_bearings gid ++ groupReadings rows gid) with
       | TriResult.ok _ _ e => GroupStatus.resolved gid e
       | TriResult.err m => GroupStatus.failed gid m) := by
    rw [groupOutcome, happ]
    rw [if_neg (Nat.not_lt.mpr h2)]
  rw [← hout]
  exact List.mem_map_of_mem _ hmem

/-- C9 (witness): group "q" has one observation from an earlier batch and
one from the current batch; the combined two-element list is solved. -/
theorem C9_recompute_uses_all_witness :
    ∃ msgs fin,
      sync_core (fun _ => TriResult.ok 7 8 9) none
        ⟨[{ group_id := "q", pango_id := "P", observer := "--", obs_lat := 4,
            obs_lon := 5, bearing := 6, gps_accuracy := 0, timestamp := 0 }], []⟩
        [{ group_id := some "q", pango_id := some "P", observer := none,
           lat := some 1, lon := some 2, bearing := some 3, accuracy := none,
           time := some (some 0) }] =
        (SyncResult.success msgs, fin) ∧
      (match (fun _ => TriResult.ok 7 8 9 : List (ℝ × ℝ × ℝ) → TriResult)
          (groupReadings
            [{ group_id := "q", pango_id := "P", observer := "--", obs_lat := 4,
               obs_lon := 5, bearing := 6, gps_accuracy := 0, timestamp := 0 }] "q" ++
           groupReadings
            [{ group_id := "q", pango_id := "P", observer := "--", obs_lat := 1,
               obs_lon := 2, bearing := 3, gps_accuracy := 0, timestamp := 0 }] "q") with
       | TriResult.ok _ _ e => GroupStatus.resolved "q" e
       | TriResult.err m => GroupStatus.failed "q" m) ∈ msgs :=
  C9_recompute_uses_all (fun _ => TriResult.ok 7 8 9) _ _ ["q"] _ "q"
    rfl rfl (by simp) (by decide)

theorem itemBad_buildRaw (it : SyncItem) (hb : itemBad it = true) :
    ∃ e, buildRaw it = Except.error e := by
  rcases it with ⟨g, p, o, la, lo, br, ac, t⟩
  rcases t with _ | t
  · exact ⟨_, rfl⟩
  · rcases t with _ | ts
    · exact ⟨_, rfl⟩
    · rcases g with _ | g
      · exact ⟨_, rfl⟩
      · rcases p with _ | p
        · exact ⟨_, rfl⟩
        · rcases la with _ | la
          · exact ⟨_, rfl⟩
          · rcases lo with _ | lo
            · exact ⟨_, rfl⟩
            · rcases br with _ | br
              · exact ⟨_, rfl⟩
              · simp [itemBad] at hb

theorem buildRawAll_error_of_bad (items : List SyncItem) (it : SyncItem)
    (hmem : it ∈ items) (hb : itemBad it = true) :
    ∃ e, buildRawAll items = Except.error e := by
  induction items with
  | nil => cases hmem
  | cons a rest ih =>
    rcases hba : buildRaw a with e | r
    · exact ⟨e, by simp only [buildRawAll, hba]⟩
    · rcases List.mem_cons.mp hmem with he | hm
      · subst he
        rcases itemBad_buildRaw it hb with ⟨e0, h0⟩
        rw [h0] at hba
        cases hba
      · rcases ih hm with ⟨e1, h1⟩
        exact ⟨e1, by simp only [buildRawAll, hba, h1]⟩

/-- C4 (counterexample): the claim "when a persistence failure occurs at any
point during processing, the whole batch reports an error and no writes from
that batch are committed" is false of the code: the raw observation rows are
committed by the mid-batch commit (line 204) before group processing, and a
storage failure at the final commit rolls back only the fix writes.
Concretely, with a healthy first commit and a failing final commit on a
one-record batch, the endpoint reports a persistence error but the store now
holds the batch's raw row. -/
theorem C4_all_or_nothing_false :
    ¬ (∀ (tri : List (ℝ × ℝ × ℝ) → TriResult) (failAt : Option ℕ) (st : Store)
         (items : List SyncItem) (fin : Store),
        sync_core tri failAt st items = (SyncResult.error SyncExc.persistError, fin) →
        fin = st) := by
  intro h
  have hc := h (fun _ => TriResult.err "x") (some 2) ⟨[], []⟩
    [{ group_id := some "g", pango_id := some "P", observer := none,
       lat := some 1, lon := some 2, bearing := some 3, accuracy := none,
       time := some (some 0) }]
    ⟨[{ group_id := "g", pango_id := "P", observer := "--", obs_lat := 1,
        obs_lon := 2, bearing := 3, gps_accuracy := 0, timestamp := 0 }], []⟩
    rfl
  have hlen := congrArg (fun s : Store => s.raw_bearings.length) hc
  simp at hlen

/-- C4 (amended): a malformed record (missing required field or unparseable
timestamp) aborts the whole batch before anything is committed — the
operation reports an error and the store is unchanged.  A persistence
failure also makes the operation report an error and never commits any fix
write, but the raw observation rows committed by the mid-batch commit can
survive: whenever `sync_core` reports an error, the fixes table is exactly
the original one and the raw table is either the original or the original
extended with the batch's validated rows. -/
theorem C4_batch_error_behavior :
    (∀ (tri : List (ℝ × ℝ × ℝ) → TriResult) (failAt : Option ℕ) (st : Store)
        (items : List SyncItem),
      (∃ it ∈ items, itemBad it = true) →
      ∃ e, sync_core tri failAt st items = (SyncResult.error e, st)) ∧
    (∀ (tri : List (ℝ × ℝ × ℝ) → TriResult) (failAt : Option ℕ) (st : Store)
        (items : List SyncItem) (e : SyncExc) (fin : Store),
      sync_core tri failAt st items = (SyncResult.error e, fin) →
      fin.fixes = st.fixes ∧
      (fin.raw_bearings = st.raw_bearings ∨
       ∃ rows, buildRawAll items = Except.ok rows ∧
         fin.raw_bearings = st.raw_bearings ++ rows)) := by
  constructor
  · rintro tri failAt st items ⟨it, hmem, hb⟩
    rcases huq : uniqueGroups items with e1 | groups
    · exact ⟨e1, by rw [sync_core, huq]⟩
    · rcases buildRawAll_error_of_bad items it hmem hb with ⟨e2, hba⟩
      exact ⟨e2, by rw [sync_core, huq, hba]⟩
  · intro tri failAt st items e fin h
    rw [sync_core] at h
    rcases huq : uniqueGroups items with e1 | groups <;> rw [huq] at h
    · simp only [Prod.mk.injEq, SyncResult.error.injEq] at h
      exact ⟨by rw [← h.2], Or.inl (by rw [← h.2])⟩
    · rcases hba : buildRawAll items with e2 | rows <;> rw [hba] at h
      · simp only [Prod.mk.injEq, SyncResult.error.injEq] at h
        exact ⟨by rw [← h.2], Or.inl (by rw [← h.2])⟩
      · cases h0 : opFails failAt 0 <;> rw [h0] at h
        · simp only [Bool.false_eq_true, if_false] at h
          rcases hpg : processGroups tri failAt groups
              (⟨st.raw_bearings ++ rows, st.fixes⟩, 1) [] with e3 | p <;>
            rw [hpg] at h
          · simp only [Prod.mk.injEq, SyncResult.error.injEq] at h
            exact ⟨by rw [← h.2], Or.inr ⟨rows, rfl, by rw [← h.2]⟩⟩
          · rcases p with ⟨s, msgs⟩
            have h2 : (if opFails failAt s.2 = true then
                (SyncResult.error SyncExc.persistError,
                 (⟨st.raw_bearings ++ rows, st.fixes⟩ : Store))
              else (SyncResult.success msgs, s.1)) = (SyncResult.error e, fin) := h
            cases hfin : opFails failAt s.2 <;> rw [hfin] at h2
            · simp only [Bool.false_eq_true, if_false, Prod.mk.injEq] at h2
              cases h2.1
            · simp only [if_true, Prod.mk.injEq, SyncResult.error.injEq] at h2
              exact ⟨by rw [← h2.2], Or.inr ⟨rows, rfl, by rw [← h2.2]⟩⟩
        · simp only [if_true, Prod.mk.injEq, SyncResult.error.injEq] at h
          exact ⟨by rw [← h.2], Or.inl (by rw [← h.2])⟩

/-- C4 (witness): a batch whose single record is missing its `lat` field
reports an error with the store untouched, and a concrete error outcome
satisfies the rollback description. -/
theorem C4_batch_error_behavior_witness :
    (∃ e, sync_core (fun _ => TriResult.err "x") none ⟨[], []⟩
        [{ group_id := some "w", pango_id := some "P", observer := none,
           lat := none, lon := some 2, bearing := some 3, accuracy := none,
           time := some (some 0) }] =
        (SyncResult.error e, (⟨[], []⟩ : Store))) ∧
    ((⟨[{ group_id := "w", pango_id := "P", observer := "--", obs_lat := 1,
          obs_lon := 2, bearing := 3, gps_accuracy := 0, timestamp := 0 }],
        []⟩ : Store).fixes = (⟨[], []⟩ : Store).fixes) := by
  constructor
  · exact C4_batch_error_behavior.1 (fun _ => TriResult.err "x") none ⟨[], []⟩
      [{ group_id := some "w", pango_id := some "P", observer := none,
         lat := none, lon := some 2, bearing := some 3, accuracy := none,
         time := some (some 0) }]
      ⟨_, List.mem_singleton.mpr rfl, rfl⟩
  · exact (C4_batch_error_behavior.2 (fun _ => TriResult.err "x") (some 2) ⟨[], []⟩
      [{ group_id := some "w", pango_id := some "P", observer := none,
         lat := some 1, lon := some 2, bearing := some 3, accuracy := none,
         time := some (some 0) }] SyncExc.persistError
      ⟨[{ group_id := "w", pango_id := "P", observer := "--", obs_lat := 1,
          obs_lon := 2, bearing := 3, gps_accuracy := 0, timestamp := 0 }], []⟩
      rfl).1

end PangoT
